import Mathlib

/-!
Verification of the FridgeFusion wizard (src/app.py, the Gemini variant, which
subsumes the helper logic shared with src/openai.py).

Modelling conventions:
* Python strings are Lean `String`s; the Python string operations used by the
  code (`str.split` on a one-character separator, `str.strip`, `str.lower`,
  `sep.join`) are given structural definitions over `List Char` so they
  evaluate by kernel reduction.
* The external inference calls (`model.generate_content`) are modelled by their
  outcome, an explicit `Except String String` input: `Except.error e` for a
  raised exception with message `e`, `Except.ok t` for a response whose text is
  `t`.
* Streamlit diagnostics (`st.error`) are modelled as message strings returned
  alongside the value.
* The MD5 digest of `image_hash` (src/app.py line 113) is outside the program;
  the deduplication logic is verified for an arbitrary digest function passed
  explicitly.
-/

namespace FridgeFusion

/-- Python `str.split(c)` on the underlying character list: splits at every
occurrence of `c`, keeping empty segments, and always returns at least one
segment (`"".split(c) == [""]`). -/
def split_on_char (c : Char) : List Char → List (List Char)
  | [] => [[]]
  | x :: xs =>
    if x = c then [] :: split_on_char c xs
    else
      match split_on_char c xs with
      | [] => [[x]]
      | seg :: rest => (x :: seg) :: rest

/-- Python `text.split(c)` for a one-character separator `c`. -/
def py_split (c : Char) (s : String) : List String :=
  (split_on_char c s.data).map (fun cs => String.mk cs)

/-- Python `str.strip()`: drop leading and trailing whitespace. -/
def py_strip (s : String) : String :=
  String.mk (((s.data.dropWhile Char.isWhitespace).reverse.dropWhile
    Char.isWhitespace).reverse)

/-- Python `str.lower()` (restricted to the ASCII case mapping, which covers
every preference option the app offers). -/
def py_lower (s : String) : String :=
  String.mk (s.data.map Char.toLower)

/-- Python `sep.join(items)`. -/
def py_join (sep : String) : List String → String
  | [] => ""
  | [x] => x
  | x :: y :: xs => x ++ sep ++ py_join sep (y :: xs)

/-- `needle` occurs verbatim inside `hay`. -/
def ContainsSubstr (needle hay : String) : Prop :=
  ∃ p q : String, hay = p ++ needle ++ q

/-- An image held in the session's Image Store; `bytes` models the canonical
JPEG re-encoding produced by `image_to_bytes` (src/app.py lines 107-110). -/
structure Image where
  bytes : List Nat
deriving DecidableEq, Repr

/-- src/app.py lines 115-120: `is_duplicate` computes the candidate's digest and
scans the store for an image with an equal digest. `hash` stands for
`image_hash` (the MD5 hexdigest of the image bytes, line 113). -/
def is_duplicate (hash : Image → String) (new_image : Image)
    (existing_images : List Image) : Bool :=
  existing_images.any (fun img => hash img == hash new_image)

/-- src/app.py lines 247-253: one iteration of the upload loop — a non-duplicate
image is appended to the store, a duplicate leaves the store unchanged. -/
def add_image (hash : Image → String) (store : List Image) (img : Image) :
    List Image :=
  if is_duplicate hash img store then store else store ++ [img]

/-- src/app.py lines 244-253: the upload loop over a whole batch of files. -/
def upload_files (hash : Image → String) (store : List Image)
    (files : List Image) : List Image :=
  files.foldl (add_image hash) store

/-- The four wizard stages of src/app.py (line 192). -/
inductive Page
  | Home
  | UploadImages
  | IdentifyIngredients
  | GenerateRecipe
deriving DecidableEq, Repr

/-- The per-session wizard state initialised by `init_session_state`
(src/app.py lines 180-188). -/
structure SessionState where
  page : Page
  images : List Image
  ingredients : List String
  recipes : List String
deriving DecidableEq, Repr

/-- src/app.py lines 181-188: the freshly initialised session. -/
def initial_state : SessionState :=
  { page := Page.Home, images := [], ingredients := [], recipes := [] }

/-- src/app.py line 279. -/
def uploadValidationMsg : String :=
  "Please upload at least one image before proceeding."

/-- src/app.py line 322. -/
def identifyValidationMsg : String :=
  "Please identify ingredients before proceeding."

/-- src/app.py lines 277-282: the Next button of the Upload Images page.
Returns the resulting state together with the `st.error` message, if any. -/
def nextFromUpload (s : SessionState) : SessionState × Option String :=
  if s.images.isEmpty then (s, some uploadValidationMsg)
  else ({ s with page := Page.IdentifyIngredients }, none)

/-- src/app.py lines 320-325: the Next button of the Identify Ingredients
page. -/
def nextFromIdentify (s : SessionState) : SessionState × Option String :=
  if s.ingredients.isEmpty then (s, some identifyValidationMsg)
  else ({ s with page := Page.GenerateRecipe }, none)

/-- src/app.py lines 273-275: the Back to Home button. -/
def backToHome (s : SessionState) : SessionState :=
  { s with page := Page.Home }

/-- src/app.py lines 316-318: the Back to Upload button. -/
def backToUpload (s : SessionState) : SessionState :=
  { s with page := Page.UploadImages }

/-- src/app.py lines 366-368: the Back to Ingredients button. -/
def backToIngredients (s : SessionState) : SessionState :=
  { s with page := Page.IdentifyIngredients }

/-- src/app.py line 136: the diagnostic emitted for a failed identify call. -/
def identifyErrMsg (e : String) : String :=
  "An error occurred while identifying items: " ++ e

/-- src/app.py lines 133-134: split a response text on commas and strip each
segment. Empty segments are kept, exactly as `str.split` keeps them. -/
def parse_items (text : String) : List String :=
  (py_split (',') text).map py_strip

/-- src/app.py lines 122-137, the loop body of `identify_items`: the successful
responses contribute their parsed items in order; each failure contributes one
`st.error` diagnostic and is skipped. -/
def identify_items_raw : List (Except String String) → List String × List String
  | [] => ([], [])
  | r :: rest =>
    let acc := identify_items_raw rest
    match r with
    | Except.ok t => (parse_items t ++ acc.1, acc.2)
    | Except.error e => (acc.1, identifyErrMsg e :: acc.2)

/-- src/app.py lines 122-138 (`identify_items`): the final
`list(set(all_items))` collapses duplicates; Python's set iteration order is
unspecified, so the dedup is modelled canonically by `List.dedup`. Returns the
ingredient list and the emitted diagnostics. -/
def identify_items (results : List (Except String String)) :
    List String × List String :=
  ((identify_items_raw results).1.dedup, (identify_items_raw results).2)

/-- src/app.py line 308: the Identify page re-parses the edited text area into
the ingredient list — split on newlines, strip, keep the non-empty entries. -/
def edit_ingredients (text : String) : List String :=
  ((py_split ('\n') text).map py_strip).filter (fun s => s != "")

/-- src/app.py line 152: the fixed marker returned when a generation request
fails. -/
def recipeFailMarker : String :=
  "Unable to generate recipe. Please try again."

/-- src/app.py line 151: the diagnostic emitted for a failed generation call. -/
def recipeErrMsg (e : String) : String :=
  "An error occurred while generating the recipe: " ++ e

/-- src/app.py lines 142-145: the prompt built by `generate_recipe`. The diet
clause is present only when the diet preference differs from the default
option string of the selectbox (line 344), and likewise for the cuisine clause
(line 347). -/
def build_prompt (items : List String) (diet_preference cuisine_preference : String) :
    String :=
  let diet_instruction :=
    if diet_preference ≠ "None" then
      "The recipe should be " ++ py_lower diet_preference ++ "."
    else ""
  let cuisine_instruction :=
    if cuisine_preference ≠ "Any" then
      "The recipe should be " ++ cuisine_preference ++ " cuisine."
    else ""
  "Create a recipe using these ingredients: " ++ py_join (", ") items ++ ". " ++
    diet_instruction ++ " " ++ cuisine_instruction ++
    " Provide the recipe name, ingredients with quantities, and step-by-step instructions."

/-- src/app.py lines 140-152 (`generate_recipe`): the external call is modelled
by its outcome `call`, applied to the built prompt. Returns the recipe text and
the optional `st.error` diagnostic; a failure yields the fixed marker (line
152) instead of raising. -/
def generate_recipe (call : String → Except String String) (items : List String)
    (diet_preference cuisine_preference : String) : String × Option String :=
  match call (build_prompt items diet_preference cuisine_preference) with
  | Except.ok t => (t, none)
  | Except.error e => (recipeFailMarker, some (recipeErrMsg e))

/-- src/app.py lines 154-159 (`generate_multiple_recipes`): `num_recipes`
sequential `generate_recipe` calls; `call i` is the outcome of the i-th
request. Returns the request-ordered recipe list and the emitted
diagnostics. -/
def generate_multiple_recipes (call : Nat → String → Except String String)
    (items : List String) (diet_preference cuisine_preference : String)
    (num_recipes : Nat) : List String × List String :=
  let outs := (List.range num_recipes).map
    (fun i => generate_recipe (call i) items diet_preference cuisine_preference)
  (outs.map Prod.fst, outs.filterMap Prod.snd)

/-- src/app.py lines 169-172: the text cells written into the PDF, in order —
for the i-th recipe (1-based, from `enumerate(recipes, 1)`) a header cell
`Recipe i` followed by the recipe body cell. -/
def pdf_cells_from (i : Nat) : List String → List String
  | [] => []
  | r :: rest => ("Recipe " ++ Nat.repr i) :: r :: pdf_cells_from (i + 1) rest

/-- src/app.py lines 161-177 (`get_pdf_download_link`): the document's cell
stream; the FPDF byte serialization of these cells is outside the model. -/
def pdf_cells (recipes : List String) : List String :=
  pdf_cells_from 1 recipes

/-! ### Helper lemmas -/

/-- `is_duplicate` is exactly the existence of a store entry with an equal
fingerprint. -/
theorem is_duplicate_eq_true_iff (hash : Image → String) (img : Image)
    (store : List Image) :
    is_duplicate hash img store = true ↔ ∃ i ∈ store, hash i = hash img := by
  simp [is_duplicate, List.any_eq_true]

/-- Appending through `add_image` preserves pairwise-distinct fingerprints. -/
theorem add_image_map_hash_nodup (hash : Image → String) (store : List Image)
    (img : Image) (hnd : (store.map hash).Nodup) :
    ((add_image hash store img).map hash).Nodup := by
  unfold add_image
  by_cases h : is_duplicate hash img store
  · simp [h, hnd]
  · have hmem : hash img ∉ store.map hash := by
      rw [Bool.not_eq_true, ← Bool.not_eq_true] at h
      intro hmem
      rcases List.mem_map.1 hmem with ⟨i, hi, hhi⟩
      exact h ((is_duplicate_eq_true_iff hash img store).2 ⟨i, hi, hhi⟩)
    simp only [h, if_neg, Bool.false_eq_true, if_false, List.map_append,
      List.map_cons, List.map_nil]
    exact List.Nodup.append hnd (List.nodup_singleton _)
      (by simpa [List.disjoint_right] using hmem)

/-- The whole upload loop preserves pairwise-distinct fingerprints. -/
theorem upload_files_map_hash_nodup (hash : Image → String) (files : List Image)
    (store : List Image) (hnd : (store.map hash).Nodup) :
    ((upload_files hash store files).map hash).Nodup := by
  induction files generalizing store with
  | nil => simpa [upload_files] using hnd
  | cons f fs ih =>
    simpa [upload_files] using
      ih (add_image hash store f) (add_image_map_hash_nodup hash store f hnd)

/-! ### Claim theorems -/

/-- C1: with an empty Image Store, the Next button of the Upload Images page is
rejected — the validation message is shown and the session state is returned
with every field unchanged; likewise, with an empty Ingredient set, the Next
button of the Identify Ingredients page is rejected and the state is
unchanged. -/
theorem forward_navigation_rejected_on_empty (s t : SessionState)
    (hs : s.images = []) (ht : t.ingredients = []) :
    nextFromUpload s = (s, some uploadValidationMsg) ∧
    nextFromIdentify t = (t, some identifyValidationMsg) := by
  constructor
  · simp [nextFromUpload, hs]
  · simp [nextFromIdentify, ht]

/-- Witness for C1 at a concrete state. -/
theorem forward_navigation_rejected_on_empty_witness :
    nextFromUpload ⟨Page.UploadImages, [], [("Milk")], [("r")]⟩ =
      (⟨Page.UploadImages, [], [("Milk")], [("r")]⟩, some uploadValidationMsg) ∧
    nextFromIdentify ⟨Page.IdentifyIngredients, [⟨[1]⟩], [], []⟩ =
      (⟨Page.IdentifyIngredients, [⟨[1]⟩], [], []⟩, some identifyValidationMsg) :=
  forward_navigation_rejected_on_empty _ _ rfl rfl

/-- C3: each backward transition changes only the stage pointer; the Image
Store, the Ingredient set and the Recipe list are left exactly unchanged. -/
theorem backward_navigation_frame (s : SessionState) :
    (backToIngredients s).page = Page.IdentifyIngredients ∧
    (backToIngredients s).images = s.images ∧
    (backToIngredients s).ingredients = s.ingredients ∧
    (backToIngredients s).recipes = s.recipes ∧
    (backToUpload s).page = Page.UploadImages ∧
    (backToUpload s).images = s.images ∧
    (backToUpload s).ingredients = s.ingredients ∧
    (backToUpload s).recipes = s.recipes ∧
    (backToHome s).page = Page.Home ∧
    (backToHome s).images = s.images ∧
    (backToHome s).ingredients = s.ingredients ∧
    (backToHome s).recipes = s.recipes := by
  simp [backToIngredients, backToUpload, backToHome]

/-- C2: the Image Store never holds two images with equal fingerprints:
`is_duplicate` decides exactly "some existing image has an equal fingerprint",
inserting an image whose fingerprint already occurs leaves the store unchanged,
and after any batch of uploads into a store with pairwise-distinct fingerprints
the fingerprints remain pairwise distinct, so the store holds at most one entry
for any given fingerprint. -/
theorem image_store_no_duplicate_fingerprints (hash : Image → String)
    (store : List Image) (img img0 : Image) (files : List Image)
    (h0 : img0 ∈ store) (hh : hash img0 = hash img)
    (hnd : (store.map hash).Nodup) :
    (is_duplicate hash img store = true ↔ ∃ i ∈ store, hash i = hash img) ∧
    add_image hash store img = store ∧
    ((upload_files hash store files).map hash).Nodup ∧
    ((upload_files hash store files).map hash).count (hash img) ≤ 1 := by
  refine ⟨is_duplicate_eq_true_iff hash img store, ?_, ?_, ?_⟩
  · unfold add_image
    rw [if_pos]
    exact (is_duplicate_eq_true_iff hash img store).2 ⟨img0, h0, hh⟩
  · exact upload_files_map_hash_nodup hash files store hnd
  · exact List.nodup_iff_count_le_one.1
      (upload_files_map_hash_nodup hash files store hnd) (hash img)

/-- Witness for C2 at a concrete digest function, store and upload batch. -/
theorem image_store_no_duplicate_fingerprints_witness :
    (is_duplicate (fun i => Nat.repr i.bytes.length) (⟨[5]⟩ : Image)
        [(⟨[7]⟩ : Image)] = true ↔
      ∃ i ∈ [((⟨[7]⟩ : Image) : Image)],
        (fun i : Image => Nat.repr i.bytes.length) i =
          (fun i : Image => Nat.repr i.bytes.length) (⟨[5]⟩ : Image)) ∧
    add_image (fun i => Nat.repr i.bytes.length) [(⟨[7]⟩ : Image)]
        (⟨[5]⟩ : Image) = [(⟨[7]⟩ : Image)] ∧
    ((upload_files (fun i => Nat.repr i.bytes.length) [(⟨[7]⟩ : Image)]
        [(⟨[5]⟩ : Image), (⟨[2, 3]⟩ : Image)]).map
      (fun i => Nat.repr i.bytes.length)).Nodup ∧
    ((upload_files (fun i => Nat.repr i.bytes.length) [(⟨[7]⟩ : Image)]
        [(⟨[5]⟩ : Image), (⟨[2, 3]⟩ : Image)]).map
      (fun i => Nat.repr i.bytes.length)).count
        ((fun i : Image => Nat.repr i.bytes.length) (⟨[5]⟩ : Image)) ≤ 1 :=
  image_store_no_duplicate_fingerprints (fun i => Nat.repr i.bytes.length)
    [(⟨[7]⟩ : Image)] (⟨[5]⟩ : Image) (⟨[7]⟩ : Image)
    [(⟨[5]⟩ : Image), (⟨[2, 3]⟩ : Image)] (by decide) (by decide) (by decide)

/-- `str.split` always yields at least one segment. -/
theorem split_on_char_ne_nil (c : Char) (l : List Char) :
    split_on_char c l ≠ [] := by
  cases l with
  | nil => simp [split_on_char]
  | cons x xs =>
    unfold split_on_char
    by_cases h : x = c
    · simp [h]
    · simp only [h, if_neg, if_false]
      cases hs : split_on_char c xs <;> simp

/-- `parse_items` always yields at least one (possibly empty) token. -/
theorem parse_items_ne_nil (t : String) : parse_items t ≠ [] := by
  unfold parse_items py_split
  intro h
  rcases List.map_eq_nil_iff.1 h with h1
  exact split_on_char_ne_nil (',') t.data (List.map_eq_nil_iff.1 h1)

/-- Membership in the pre-dedup item list of `identify_items`: exactly the
trimmed comma-segments of the successful responses. -/
theorem mem_identify_items_raw (rs : List (Except String String)) (x : String) :
    x ∈ (identify_items_raw rs).1 ↔
      ∃ t, Except.ok t ∈ rs ∧ x ∈ parse_items t := by
  induction rs with
  | nil => simp [identify_items_raw]
  | cons r rest ih =>
    cases r with
    | ok t =>
      simp only [identify_items_raw, List.mem_append, ih, List.mem_cons]
      constructor
      · rintro (hx | ⟨u, hu, hxu⟩)
        · exact ⟨t, Or.inl rfl, hx⟩
        · exact ⟨u, Or.inr hu, hxu⟩
      · rintro ⟨u, hu | hu, hxu⟩
        · refine Or.inl ?_
          rw [Except.ok.injEq] at hu
          rw [hu] at hxu
          exact hxu
        · exact Or.inr ⟨u, hu, hxu⟩
    | error e =>
      simp only [identify_items_raw, ih, List.mem_cons]
      constructor
      · rintro ⟨u, hu, hxu⟩
        exact ⟨u, Or.inr hu, hxu⟩
      · rintro ⟨u, hu | hu, hxu⟩
        · cases hu
        · exact ⟨u, hu, hxu⟩

/-- One diagnostic is emitted per failed call, none per successful call. -/
theorem identify_items_raw_diag_count (rs : List (Except String String)) :
    (identify_items_raw rs).2.length =
      rs.countP (fun r => match r with
        | Except.error _ => true
        | Except.ok _ => false) := by
  induction rs with
  | nil => simp [identify_items_raw]
  | cons r rest ih =>
    cases r with
    | ok t => simpa [identify_items_raw, List.countP_cons] using ih
    | error e => simpa [identify_items_raw, List.countP_cons] using ih

/-- C4: in a two-image batch where one inference call fails and the other
succeeds, `identify_items` returns the successful image's items (a non-empty
list) in either order, together with exactly one diagnostic; in any batch every
successful response's items survive into the result, and the number of
diagnostics equals the number of failed calls. -/
theorem batch_failure_isolated (e t : String) (rs : List (Except String String)) :
    identify_items [Except.error e, Except.ok t] =
      ((parse_items t).dedup, [identifyErrMsg e]) ∧
    identify_items [Except.ok t, Except.error e] =
      ((parse_items t).dedup, [identifyErrMsg e]) ∧
    (identify_items [Except.error e, Except.ok t]).1 ≠ [] ∧
    (∀ x, Except.ok t ∈ rs → x ∈ parse_items t → x ∈ (identify_items rs).1) ∧
    (identify_items rs).2.length =
      rs.countP (fun r => match r with
        | Except.error _ => true
        | Except.ok _ => false) := by
  refine ⟨?_, ?_, ?_, ?_, ?_⟩
  · simp [identify_items, identify_items_raw]
  · simp [identify_items, identify_items_raw]
  · simp only [identify_items, identify_items_raw, List.append_nil, ne_eq,
      List.dedup_eq_nil]
    exact parse_items_ne_nil t
  · intro x hmem hx
    simp only [identify_items, List.mem_dedup]
    exact (mem_identify_items_raw rs x).2 ⟨t, hmem, hx⟩
  · exact identify_items_raw_diag_count rs

/-- Witness for C4 at a concrete failing/succeeding batch. -/
theorem batch_failure_isolated_witness :
    identify_items [Except.error ("boom"), Except.ok ("Milk, Egg")] =
      ((parse_items ("Milk, Egg")).dedup, [identifyErrMsg ("boom")]) ∧
    ("Milk") ∈ (identify_items [Except.ok ("Milk, Egg")]).1 := by
  have h := batch_failure_isolated ("boom") ("Milk, Egg")
    [Except.ok ("Milk, Egg")]
  exact ⟨h.1, h.2.2.2.1 ("Milk") (by simp) (by decide)⟩

/-- C5 (amended): `identify_items` splits each successful response on commas
and strips each segment, but does not discard empty segments — every resulting
ingredient is the stripped form of some comma-segment of a successful response,
and may be the empty string. -/
theorem extract_items_are_stripped_segments
    (results : List (Except String String)) (x : String)
    (hx : x ∈ (identify_items results).1) :
    ∃ t seg, Except.ok t ∈ results ∧ seg ∈ py_split (',') t ∧
      x = py_strip seg := by
  simp only [identify_items, List.mem_dedup] at hx
  rcases (mem_identify_items_raw results x).1 hx with ⟨t, ht, hxt⟩
  rcases List.mem_map.1 hxt with ⟨seg, hseg, hstrip⟩
  exact ⟨t, seg, ht, hseg, hstrip.symm⟩

/-- Witness for the amended C5 at a concrete response. -/
theorem extract_items_are_stripped_segments_witness :
    ∃ t seg, Except.ok t ∈ ([Except.ok ("a, b")] : List (Except String String)) ∧
      seg ∈ py_split (',') t ∧ ("b") = py_strip seg :=
  extract_items_are_stripped_segments [Except.ok ("a, b")] ("b") (by decide)

/-- Counterexample to C5 as stated: empty segments are not discarded — a
response text with a double comma puts the empty string into the result, so not
every ingredient is non-empty. -/
theorem extract_items_empty_segment_counterexample :
    ("") ∈ (identify_items [Except.ok ("milk,,egg")]).1 ∧
    ¬ (∀ x ∈ (identify_items [Except.ok ("milk,,egg")]).1, x ≠ ("")) := by
  refine ⟨by decide, fun h => h ("") (by decide) rfl⟩

/-- C6 (amended): the collection produced by `identify_items` has set
semantics under exact case-sensitive string equality — it is duplicate-free,
and a token occurring in the responses of two images yields exactly one entry.
(The user's edit step, however, does not re-deduplicate; see the
counterexample.) -/
theorem ingredient_set_semantics (results : List (Except String String))
    (t1 t2 x : String) (h1 : x ∈ parse_items t1) (h2 : x ∈ parse_items t2) :
    (identify_items results).1.Nodup ∧
    (identify_items [Except.ok t1, Except.ok t2]).1.count x = 1 := by
  constructor
  · exact List.nodup_dedup _
  · simp only [identify_items, List.count_dedup, identify_items_raw,
      List.append_nil, List.mem_append]
    simp [h1]

/-- Witness for the amended C6: two responses both containing `Milk` yield
exactly one `Milk` entry. -/
theorem ingredient_set_semantics_witness :
    (identify_items [Except.ok ("Milk, Egg"), Except.ok ("Milk")]).1.Nodup ∧
    (identify_items [Except.ok ("Milk, Egg"), Except.ok ("Milk")]).1.count
      ("Milk") = 1 :=
  ingredient_set_semantics [Except.ok ("Milk, Egg"), Except.ok ("Milk")]
    ("Milk, Egg") ("Milk") ("Milk") (by decide) (by decide)

/-- Counterexample to C6 as stated: the edit step (src/app.py line 308) trims
and drops empty lines but does not deduplicate, so a user edit can reintroduce
duplicates into the working ingredient collection. -/
theorem edit_step_reintroduces_duplicates :
    edit_ingredients ("Milk\nMilk") = [("Milk"), ("Milk")] ∧
    ¬ (edit_ingredients ("Milk\nMilk")).Nodup := by
  refine ⟨by decide, by decide⟩

/-- A substring of the right part survives prepending. -/
theorem containsSubstr_append_left (n a b : String) (h : ContainsSubstr n b) :
    ContainsSubstr n (a ++ b) := by
  rcases h with ⟨p, q, hpq⟩
  exact ⟨a ++ p, q, by rw [hpq]; simp [String.append_assoc]⟩

/-- A substring of the left part survives appending. -/
theorem containsSubstr_append_right (n a b : String) (h : ContainsSubstr n a) :
    ContainsSubstr n (a ++ b) := by
  rcases h with ⟨p, q, hpq⟩
  exact ⟨p, q ++ b, by rw [hpq]; simp [String.append_assoc]⟩

/-- C7: the generation prompt is the comma-joined ingredient list with the diet
clause appended exactly when the diet preference differs from the default
option and the cuisine clause appended exactly when the cuisine preference
differs from the default option; in particular with diet `Vegan` and cuisine
`Italian` every prompt contains the substrings `vegan` and `Italian`. -/
theorem prompt_conditional_clauses (items : List String) (diet cuisine : String) :
    ContainsSubstr ("vegan") (build_prompt items ("Vegan") ("Italian")) ∧
    ContainsSubstr ("Italian") (build_prompt items ("Vegan") ("Italian")) ∧
    (∃ d c : String,
      build_prompt items diet cuisine =
        "Create a recipe using these ingredients: " ++ py_join (", ") items ++
          ". " ++ d ++ " " ++ c ++
          " Provide the recipe name, ingredients with quantities, and step-by-step instructions." ∧
      (diet = "None" → d = "") ∧
      (diet ≠ "None" → d = "The recipe should be " ++ py_lower diet ++ ".") ∧
      (cuisine = "Any" → c = "") ∧
      (cuisine ≠ "Any" → c = "The recipe should be " ++ cuisine ++ " cuisine.")) := by
  have hv : build_prompt items ("Vegan") ("Italian") =
      "Create a recipe using these ingredients: " ++ py_join (", ") items ++
        ". " ++ ("The recipe should be " ++ ("vegan") ++ ".") ++ " " ++
        ("The recipe should be " ++ ("Italian") ++ " cuisine.") ++
        " Provide the recipe name, ingredients with quantities, and step-by-step instructions." := by
    simp only [build_prompt]
    norm_num
    rfl
  refine ⟨?_, ?_, ?_⟩
  · rw [hv]
    refine containsSubstr_append_right _ _ _ ?_
    refine containsSubstr_append_right _ _ _ ?_
    refine containsSubstr_append_right _ _ _ ?_
    refine containsSubstr_append_left _ _ _ ?_
    refine containsSubstr_append_right _ _ _ ?_
    refine containsSubstr_append_left _ _ _ ?_
    exact ⟨"", "", by simp⟩
  · rw [hv]
    refine containsSubstr_append_right _ _ _ ?_
    refine containsSubstr_append_left _ _ _ ?_
    refine containsSubstr_append_right _ _ _ ?_
    refine containsSubstr_append_left _ _ _ ?_
    exact ⟨"", "", by simp⟩
  · rcases eq_or_ne diet "None" with hd | hd <;>
      rcases eq_or_ne cuisine "Any" with hc | hc
    · exact ⟨"", "", by simp [build_prompt, hd, hc], fun _ => rfl,
        fun h => absurd hd h, fun _ => rfl, fun h => absurd hc h⟩
    · exact ⟨"", "The recipe should be " ++ cuisine ++ " cuisine.",
        by simp [build_prompt, hd, hc], fun _ => rfl, fun h => absurd hd h,
        fun h => absurd h hc, fun _ => rfl⟩
    · exact ⟨"The recipe should be " ++ py_lower diet ++ ".", "",
        by simp [build_prompt, hd, hc], fun h => absurd h hd, fun _ => rfl,
        fun _ => rfl, fun h => absurd hc h⟩
    · exact ⟨"The recipe should be " ++ py_lower diet ++ ".",
        "The recipe should be " ++ cuisine ++ " cuisine.",
        by simp [build_prompt, hd, hc], fun h => absurd h hd, fun _ => rfl,
        fun h => absurd h hc, fun _ => rfl⟩

/-- C8: for a non-empty ingredient list and positive count,
`generate_multiple_recipes` returns a sequence of length at most `count` whose
i-th entry is the outcome of the i-th request; a failed request yields the
`st.error` diagnostic and its slot holds the explicit failure marker — a
non-empty string, never a silent empty pad. -/
theorem generate_recipes_contract (call : Nat → String → Except String String)
    (items : List String) (diet cuisine : String) (n : Nat)
    (hne : items ≠ []) (hpos : 0 < n) :
    (generate_multiple_recipes call items diet cuisine n).1.length ≤ n ∧
    (∀ i, ∀ h : i < (generate_multiple_recipes call items diet cuisine n).1.length,
      (generate_multiple_recipes call items diet cuisine n).1.get ⟨i, h⟩ =
        (generate_recipe (call i) items diet cuisine).1) ∧
    (∀ i e, i < n → call i (build_prompt items diet cuisine) = Except.error e →
      (generate_recipe (call i) items diet cuisine).1 = recipeFailMarker ∧
      recipeErrMsg e ∈ (generate_multiple_recipes call items diet cuisine n).2) ∧
    recipeFailMarker ≠ "" := by
  refine ⟨?_, ?_, ?_, by decide⟩
  · simp [generate_multiple_recipes]
  · intro i h
    simp only [generate_multiple_recipes, List.get_eq_getElem, List.getElem_map]
    congr 1
    simp only [generate_multiple_recipes, List.length_map] at h
    simp [List.getElem_range]
  · intro i e hi hcall
    refine ⟨by simp [generate_recipe, hcall], ?_⟩
    simp only [generate_multiple_recipes]
    refine List.mem_filterMap.2
      ⟨generate_recipe (call i) items diet cuisine, ?_, ?_⟩
    · exact List.mem_map.2 ⟨i, List.mem_range.2 hi, rfl⟩
    · simp [generate_recipe, hcall]

/-- Witness for C8 at a concrete request sequence with one failing slot. -/
theorem generate_recipes_contract_witness :
    (generate_multiple_recipes
      (fun i _ => if i = 0 then Except.error ("boom") else Except.ok ("r"))
      [("x")] ("None") ("Any") 2).1.length ≤ 2 ∧
    recipeErrMsg ("boom") ∈ (generate_multiple_recipes
      (fun i _ => if i = 0 then Except.error ("boom") else Except.ok ("r"))
      [("x")] ("None") ("Any") 2).2 := by
  have h := generate_recipes_contract
    (fun i _ => if i = 0 then Except.error ("boom") else Except.ok ("r"))
    [("x")] ("None") ("Any") 2 (by simp) (by decide)
  exact ⟨h.1, (h.2.2.1 0 ("boom") (by decide) rfl).2⟩

/-- C10: `generate_multiple_recipes` always returns exactly `num_recipes`
entries — a failed request never raises; its slot holds the fixed marker
string. -/
theorem generate_recipes_exact_length (call : Nat → String → Except String String)
    (items : List String) (diet cuisine : String) (n : Nat) :
    (generate_multiple_recipes call items diet cuisine n).1.length = n ∧
    (∀ i e, ∀ h : i < n,
      call i (build_prompt items diet cuisine) = Except.error e →
      ∃ h2 : i < (generate_multiple_recipes call items diet cuisine n).1.length,
        (generate_multiple_recipes call items diet cuisine n).1.get ⟨i, h2⟩ =
          recipeFailMarker) := by
  constructor
  · simp [generate_multiple_recipes]
  · intro i e hi hcall
    refine ⟨by simpa [generate_multiple_recipes] using hi, ?_⟩
    simp only [generate_multiple_recipes, List.get_eq_getElem, List.getElem_map]
    rw [List.getElem_range]
    simp [generate_recipe, hcall]

/-- Witness for C10: three requests all failing still yield three entries, the
first of which is the marker. -/
theorem generate_recipes_exact_length_witness :
    (generate_multiple_recipes (fun _ _ => Except.error ("down")) []
      ("None") ("Any") 3).1.length = 3 ∧
    ∃ h2 : 0 < (generate_multiple_recipes (fun _ _ => Except.error ("down")) []
      ("None") ("Any") 3).1.length,
      (generate_multiple_recipes (fun _ _ => Except.error ("down")) []
        ("None") ("Any") 3).1.get ⟨0, h2⟩ = recipeFailMarker := by
  have h := generate_recipes_exact_length (fun _ _ => Except.error ("down")) []
    ("None") ("Any") 3
  exact ⟨h.1, h.2 0 ("down") (by decide) rfl⟩

/-- C9: the exported document for two recipes is the cell stream
`Recipe 1`, first text, `Recipe 2`, second text — the literal markers in
order, each recipe's text verbatim after its marker. -/
theorem export_document_sections (r1 r2 : String) :
    pdf_cells [r1, r2] = [("Recipe 1"), r1, ("Recipe 2"), r2] := by
  have h1 : ("Recipe " ++ Nat.repr 1) = "Recipe 1" := by decide
  have h2 : ("Recipe " ++ Nat.repr 2) = "Recipe 2" := by decide
  simp [pdf_cells, pdf_cells_from, h1, h2]

end FridgeFusion
